import Mathlib

/-
Shallow embedding of the AWS S3 helper dashboard connection lifecycle:
the bootstrap route (GET /api/aws/bootstrap), the verify route
(POST /api/aws/verify, current revision), and the resource-access routes
(GET /api/s3/buckets, GET /api/s3/objects, POST /api/s3/presigned-url),
together with the AWS library wrappers in lib/aws (listBuckets, listObjects
response normalization).

Modelling conventions:
- The Prisma AwsConnection table is a list of rows kept newest-first:
  creation prepends, so findFirst with orderBy createdAt desc is List.find?
  on the list.  Row ids are opaque tokens modelled as Nat.
- Network effects (STS AssumeRole, S3 sends) are oracles packaged in an
  AwsEnv record; each route also returns the list of provider calls it
  issued, so that claims of the form "before any network call" are
  statements about that trace.
- JavaScript truthiness on nullable strings (x ? ... : ...) is modelled by
  jsFalsy: null and the empty string are falsy.  The fallback pattern
  a || b on strings and numbers is jsOrStr / jsOrNum.
- Nondeterministic inputs of a request (crypto.randomBytes external id,
  fresh database id, current time) are packaged in a FreshCtx record.
-/

namespace S3Helper

/-- Short-lived credentials returned by STS AssumeRole (lib/aws assumeRole
result shape).  Held in memory only; the Conn row type below has no field
of this shape. -/
structure Credentials where
  accessKeyId : String
  secretAccessKey : String
  sessionToken : String
  expiration : Nat
deriving DecidableEq

/-- One row of the AwsConnection table: id, userId, externalId, nullable
roleArn (null means pending), name, createdAt. -/
structure Conn where
  id : Nat
  userId : String
  externalId : String
  roleArn : Option String
  name : String
  createdAt : Nat
deriving DecidableEq

/-- The AwsConnection table, kept newest-first: creation prepends, so a
Prisma findFirst with orderBy createdAt desc is List.find? on this list. -/
abbrev DB := List Conn

/-- Kernel-reducible test that the first character list is an initial
segment of the second (used to embed String.startsWith). -/
def leadsWith : List Char → List Char → Bool
  | [], _ => true
  | _ :: _, [] => false
  | p :: ps, c :: cs => p == c && leadsWith ps cs

/-- Kernel-reducible test that the first character list occurs inside the
second (used to embed String.includes). -/
def containsChars (pat : List Char) : List Char → Bool
  | [] => leadsWith pat []
  | c :: cs => leadsWith pat (c :: cs) || containsChars pat cs

/-- Embedding of JavaScript s.startsWith(pat). -/
def strStartsWith (s pat : String) : Bool :=
  leadsWith pat.data s.data

/-- Embedding of JavaScript s.includes(pat). -/
def strIncludes (s pat : String) : Bool :=
  containsChars pat.data s.data

/-- Embedding of the emptiness test on a string. -/
def strIsEmpty (s : String) : Bool :=
  s.data.isEmpty

/-- JavaScript truthiness test on a nullable string: null and the empty
string are falsy. -/
def jsFalsy : Option String → Bool
  | none => true
  | some s => strIsEmpty s

/-- JavaScript pattern a || b on a nullable string a: falls back to b when
a is absent or empty. -/
def jsOrStr (o : Option String) (d : String) : String :=
  match o with
  | some s => if strIsEmpty s then d else s
  | none => d

/-- JavaScript pattern a || b on a nullable number a: falls back to b when
a is absent or zero. -/
def jsOrNum (o : Option Nat) (d : Nat) : Nat :=
  match o with
  | some n => if n = 0 then d else n
  | none => d

/-- Prisma findFirst where id and userId both match (the scoped lookup used
by every route that accepts an explicit connectionId). -/
def findById (db : DB) (cid : Nat) (uid : String) : Option Conn :=
  db.find? (fun c => c.id == cid && c.userId == uid)

/-- Prisma findFirst where userId matches and roleArn is null, orderBy
createdAt desc (the latest pending row of the user). -/
def findLatestPending (db : DB) (uid : String) : Option Conn :=
  db.find? (fun c => c.userId == uid && c.roleArn.isNone)

/-- Prisma findFirst where userId matches, orderBy createdAt desc (the most
recent connection of the user). -/
def findLatest (db : DB) (uid : String) : Option Conn :=
  db.find? (fun c => c.userId == uid)

/-- Prisma findFirst where userId and roleArn both match (reconciliation
lookup in the verify route). -/
def findByUserRole (db : DB) (uid : String) (arn : String) : Option Conn :=
  db.find? (fun c => c.userId == uid && c.roleArn == some arn)

/-- Prisma update where id matches: applies the update data to the matching
row in place. -/
def updateConn (db : DB) (cid : Nat) (f : Conn → Conn) : DB :=
  db.map (fun c => if c.id == cid then f c else c)

/-- Prisma delete where id matches. -/
def deleteConn (db : DB) (cid : Nat) : DB :=
  db.filter (fun c => c.id != cid)

/-- The roleArn format check of the verify route, verbatim from the source:
startsWith arn:aws:iam:: and includes :role/. -/
def validRoleArnFormat (s : String) : Bool :=
  strStartsWith s "arn:aws:iam::" && strIncludes s ":role/"

/-- Raw bucket entry of the provider ListBuckets response (SDK shape with
optional fields). -/
structure RawBucket where
  bucketName : String
  bucketCreationDate : Option Nat
deriving DecidableEq

/-- Raw provider ListBuckets response: the Buckets field is optional. -/
structure ListBucketsResponse where
  respBuckets : Option (List RawBucket)
deriving DecidableEq

/-- Raw object entry of the provider ListObjectsV2 response. -/
structure RawObject where
  objKey : String
  objSize : Option Nat
  objLastModified : Option Nat
  objETag : Option String
deriving DecidableEq

/-- Raw provider ListObjectsV2 response: Contents, IsTruncated and
NextContinuationToken are all optional. -/
structure ListObjectsResponse where
  respContents : Option (List RawObject)
  respIsTruncated : Option Bool
  respNextToken : Option String
deriving DecidableEq

/-- Public bucket view returned by lib/aws listBuckets. -/
structure Bucket where
  name : String
  creationDate : Option Nat
deriving DecidableEq

/-- Public object view returned by lib/aws listObjects. -/
structure S3Object where
  key : String
  size : Option Nat
  lastModified : Option Nat
  etag : Option String
deriving DecidableEq

/-- Public result of lib/aws listObjects: objects, isTruncated (defaulted
to false) and the pass-through continuation token. -/
structure ObjectsView where
  objects : List S3Object
  isTruncated : Bool
  nextContinuationToken : Option String
deriving DecidableEq

/-- Oracles for the external provider calls: STS AssumeRole (lib/aws
assumeRole, taking the roleArn as passed by the caller, which the objects
route may pass as null) and the raw SDK sends wrapped by the lib/aws
helpers. -/
structure AwsEnv where
  assumeRole : Option String → String → Except String Credentials
  sendListBuckets : Credentials → Except String ListBucketsResponse
  sendListObjects : String → Option String → Option Nat → Credentials →
    Except String ListObjectsResponse
  sendPresign : String → String → Option String → Credentials → Nat →
    Except String String

/-- Success-path normalization of lib/aws listBuckets: Buckets absent maps
to the empty list (response.Buckets?.map(...) || []). -/
def listBucketsFromResponse (r : ListBucketsResponse) : List Bucket :=
  match r.respBuckets with
  | none => []
  | some bs => bs.map (fun b => { name := b.bucketName, creationDate := b.bucketCreationDate })

/-- The lib/aws listBuckets wrapper: send, normalize, rethrow send failures
with a Failed to list buckets message. -/
def libListBuckets (env : AwsEnv) (creds : Credentials) : Except String (List Bucket) :=
  match env.sendListBuckets creds with
  | .error e => .error ("Failed to list buckets: " ++ e)
  | .ok r => .ok (listBucketsFromResponse r)

/-- Success-path normalization of lib/aws listObjects: Contents absent maps
to the empty list, IsTruncated absent maps to false, the continuation token
is passed through. -/
def listObjectsFromResponse (r : ListObjectsResponse) : ObjectsView :=
  { objects :=
      match r.respContents with
      | none => []
      | some os => os.map (fun o =>
          { key := o.objKey, size := o.objSize,
            lastModified := o.objLastModified, etag := o.objETag })
    isTruncated := r.respIsTruncated.getD false
    nextContinuationToken := r.respNextToken }

/-- The lib/aws listObjects wrapper: send, normalize, rethrow send failures
with a Failed to list objects message. -/
def libListObjects (env : AwsEnv) (bucket : String) (pfx : Option String)
    (maxKeys : Option Nat) (creds : Credentials) : Except String ObjectsView :=
  match env.sendListObjects bucket pfx maxKeys creds with
  | .error e => .error ("Failed to list objects: " ++ e)
  | .ok r => .ok (listObjectsFromResponse r)

/-- One provider call recorded in a request trace. -/
inductive AwsCall where
  | assumeRole (roleArn : Option String) (externalId : String)
  | listBuckets
  | listObjects (bucket : String)
  | presign (bucket : String) (key : String)
deriving DecidableEq

/-- Request-scoped nondeterministic inputs: the id a created row receives,
the generateExternalId() output, and the current time. -/
structure FreshCtx where
  freshId : Nat
  freshEid : String
  now : Nat

/-- The bootstrap route (GET /api/aws/bootstrap) for an authenticated user:
return the latest pending row, creating one with a fresh service-generated
external id when none exists; respond with connectionId and externalId. -/
def bootstrap (ctx : FreshCtx) (uid : String) (db : DB) : (Nat × String) × DB :=
  match findLatestPending db uid with
  | some c => ((c.id, c.externalId), db)
  | none =>
    let c : Conn :=
      { id := ctx.freshId, userId := uid, externalId := ctx.freshEid,
        roleArn := none, name := "Pending AWS connection", createdAt := ctx.now }
    ((c.id, c.externalId), c :: db)

/-- Body of the verify request.  The route destructures only roleArn, name
and connectionId; an externalId field a client may submit is carried here
to state that it is never read. -/
structure VerifyBody where
  roleArn : Option String := none
  name : Option String := none
  connectionId : Option Nat := none
  externalId : Option String := none
deriving DecidableEq

/-- Resolution of the verify target row (verify route, step before role
assumption): prefer the row with the submitted connectionId scoped to the
user, else the latest pending row, else create a fresh pending row. -/
def resolveConn (ctx : FreshCtx) (uid : String) (connectionId : Option Nat)
    (db : DB) : Conn × DB :=
  let byId : Option Conn :=
    match connectionId with
    | some cid => findById db cid uid
    | none => none
  match byId with
  | some c => (c, db)
  | none =>
    match findLatestPending db uid with
    | some c => (c, db)
    | none =>
      let c : Conn :=
        { id := ctx.freshId, userId := uid, externalId := ctx.freshEid,
          roleArn := none, name := "Pending AWS connection", createdAt := ctx.now }
      (c, c :: db)

/-- Outcome of the verify route, tagged by the HTTP response sent. -/
inductive VerifyOutcome where
  | missingRoleArn
  | invalidRoleArnFormat
  | assumeRoleFailed (details : String)
  | bucketsFailed (details : String)
  | ok (id : Nat) (roleArn : String) (name : String) (createdAt : Nat)
deriving DecidableEq

/-- HTTP status of a verify outcome. -/
def VerifyOutcome.status : VerifyOutcome → Nat
  | .missingRoleArn => 400
  | .invalidRoleArnFormat => 400
  | .assumeRoleFailed _ => 403
  | .bucketsFailed _ => 403
  | .ok _ _ _ _ => 200

/-- Promotion step of the verify route: update the working row in place,
setting roleArn to the submitted identifier and name to the submitted name
when supplied (name || connection.name); returns the updated row and the
updated table. -/
def verifyPromote (db1 : DB) (conn : Conn) (arn : String) (nm : Option String) :
    Conn × DB :=
  let newName := jsOrStr nm conn.name
  ({ conn with roleArn := some arn, name := newName },
   updateConn db1 conn.id (fun c => { c with roleArn := some arn, name := newName }))

/-- The verify route (POST /api/aws/verify, current revision) for an
authenticated user: validate the submitted roleArn, resolve the target row
(stored external id, never client input), assume the role, probe S3 access,
then reconcile against an existing row for the same (userId, roleArn) and
promote or reuse.  Returns the outcome, the resulting table and the trace
of provider calls. -/
def verify (env : AwsEnv) (ctx : FreshCtx) (uid : String) (body : VerifyBody)
    (db : DB) : VerifyOutcome × DB × List AwsCall :=
  if jsFalsy body.roleArn then (.missingRoleArn, db, [])
  else
    let arn := body.roleArn.getD ""
    if !validRoleArnFormat arn then (.invalidRoleArnFormat, db, [])
    else
      let res := resolveConn ctx uid body.connectionId db
      let conn := res.1
      let db1 := res.2
      match env.assumeRole (some arn) conn.externalId with
      | .error msg =>
        (.assumeRoleFailed msg, db1, [AwsCall.assumeRole (some arn) conn.externalId])
      | .ok creds =>
        match libListBuckets env creds with
        | .error msg =>
          (.bucketsFailed msg, db1,
            [AwsCall.assumeRole (some arn) conn.externalId, AwsCall.listBuckets])
        | .ok _ =>
          let calls := [AwsCall.assumeRole (some arn) conn.externalId, AwsCall.listBuckets]
          match findByUserRole db1 uid arn with
          | some ex =>
            if ex.id ≠ conn.id then
              let db2 := if conn.roleArn.isNone then deleteConn db1 conn.id else db1
              (.ok ex.id (ex.roleArn.getD "") ex.name ex.createdAt, db2, calls)
            else
              let pr := verifyPromote db1 conn arn body.name
              (.ok pr.1.id (pr.1.roleArn.getD "") pr.1.name pr.1.createdAt, pr.2, calls)
          | none =>
            let pr := verifyPromote db1 conn arn body.name
            (.ok pr.1.id (pr.1.roleArn.getD "") pr.1.name pr.1.createdAt, pr.2, calls)

/-- Connection resolution shared by the resource-access routes: scoped
lookup by explicit connectionId when given, else the most recent connection
of the user with no pending filter. -/
def resolveForAccess (uid : String) (connectionId : Option Nat) (db : DB) :
    Option Conn :=
  match connectionId with
  | some cid => findById db cid uid
  | none => findLatest db uid

/-- Outcome of the buckets route, tagged by the HTTP response sent. -/
inductive BucketsOutcome where
  | notFound
  | notVerified
  | serverError (details : String)
  | ok (buckets : List Bucket) (connectionId : Nat) (connectionName : String)
      (connectionRoleArn : String)
deriving DecidableEq

/-- HTTP status of a buckets outcome. -/
def BucketsOutcome.status : BucketsOutcome → Nat
  | .notFound => 404
  | .notVerified => 409
  | .serverError _ => 500
  | .ok _ _ _ _ => 200

/-- The buckets route (GET /api/s3/buckets) for an authenticated user:
resolve the connection, 404 when none, 409 when still pending, else assume
the role and list buckets; thrown provider errors become 500. -/
def bucketsRoute (env : AwsEnv) (uid : String) (connectionId : Option Nat)
    (db : DB) : BucketsOutcome × List AwsCall :=
  match resolveForAccess uid connectionId db with
  | none => (.notFound, [])
  | some conn =>
    if jsFalsy conn.roleArn then (.notVerified, [])
    else
      match env.assumeRole conn.roleArn conn.externalId with
      | .error msg =>
        (.serverError msg, [AwsCall.assumeRole conn.roleArn conn.externalId])
      | .ok creds =>
        match libListBuckets env creds with
        | .error msg =>
          (.serverError msg,
            [AwsCall.assumeRole conn.roleArn conn.externalId, AwsCall.listBuckets])
        | .ok bs =>
          (.ok bs conn.id conn.name (conn.roleArn.getD ""),
            [AwsCall.assumeRole conn.roleArn conn.externalId, AwsCall.listBuckets])

/-- Outcome of the objects route, tagged by the HTTP response sent. -/
inductive ObjectsOutcome where
  | badRequest
  | notFound
  | serverError (details : String)
  | ok (view : ObjectsView) (connectionId : Nat) (connectionName : String)
deriving DecidableEq

/-- HTTP status of an objects outcome. -/
def ObjectsOutcome.status : ObjectsOutcome → Nat
  | .badRequest => 400
  | .notFound => 404
  | .serverError _ => 500
  | .ok _ _ _ => 200

/-- The objects route (GET /api/s3/objects) for an authenticated user:
validate the bucket parameter, resolve the connection, 404 when none, then
assume the role directly with the stored nullable roleArn — this route has
no pending check, faithful to the source — and list objects; thrown
provider errors become 500. -/
def objectsRoute (env : AwsEnv) (uid : String) (bucket : Option String)
    (pfx : Option String) (maxKeys : Option Nat) (connectionId : Option Nat)
    (db : DB) : ObjectsOutcome × List AwsCall :=
  if jsFalsy bucket then (.badRequest, [])
  else
    let b := bucket.getD ""
    match resolveForAccess uid connectionId db with
    | none => (.notFound, [])
    | some conn =>
      match env.assumeRole conn.roleArn conn.externalId with
      | .error msg =>
        (.serverError msg, [AwsCall.assumeRole conn.roleArn conn.externalId])
      | .ok creds =>
        match libListObjects env b pfx maxKeys creds with
        | .error msg =>
          (.serverError msg,
            [AwsCall.assumeRole conn.roleArn conn.externalId, AwsCall.listObjects b])
        | .ok v =>
          (.ok v conn.id conn.name,
            [AwsCall.assumeRole conn.roleArn conn.externalId, AwsCall.listObjects b])

/-- Body of the presigned-url request. -/
structure PresignBody where
  bucket : Option String := none
  key : Option String := none
  contentType : Option String := none
  connectionId : Option Nat := none
  expiresIn : Option Nat := none
deriving DecidableEq

/-- Outcome of the presigned-url route, tagged by the HTTP response sent. -/
inductive PresignOutcome where
  | badRequest
  | notFound
  | notVerified
  | serverError (details : String)
  | ok (url : String) (bucket : String) (key : String) (expiresIn : Nat)
deriving DecidableEq

/-- HTTP status of a presign outcome. -/
def PresignOutcome.status : PresignOutcome → Nat
  | .badRequest => 400
  | .notFound => 404
  | .notVerified => 409
  | .serverError _ => 500
  | .ok _ _ _ _ => 200

/-- The presigned-url route (POST /api/s3/presigned-url) for an
authenticated user: validate bucket and key, resolve the connection, 404
when none, 409 when still pending, else assume the role and mint the
presigned upload URL with expiresIn || 3600. -/
def presignRoute (env : AwsEnv) (uid : String) (body : PresignBody) (db : DB) :
    PresignOutcome × List AwsCall :=
  if jsFalsy body.bucket || jsFalsy body.key then (.badRequest, [])
  else
    let b := body.bucket.getD ""
    let k := body.key.getD ""
    match resolveForAccess uid body.connectionId db with
    | none => (.notFound, [])
    | some conn =>
      if jsFalsy conn.roleArn then (.notVerified, [])
      else
        match env.assumeRole conn.roleArn conn.externalId with
        | .error msg =>
          (.serverError msg, [AwsCall.assumeRole conn.roleArn conn.externalId])
        | .ok creds =>
          match env.sendPresign b k body.contentType creds (jsOrNum body.expiresIn 3600) with
          | .error msg =>
            (.serverError msg,
              [AwsCall.assumeRole conn.roleArn conn.externalId, AwsCall.presign b k])
          | .ok url =>
            (.ok url b k (jsOrNum body.expiresIn 3600),
              [AwsCall.assumeRole conn.roleArn conn.externalId, AwsCall.presign b k])

/-- Row-evolution property over one table transition: a surviving row (same
id found on both sides) keeps its externalId, and a row whose roleArn was
already non-null never has it reset to null. -/
def rowEvolution (db db2 : DB) : Prop :=
  ∀ c ∈ db, ∀ c2 ∈ db2, c2.id = c.id →
    c2.externalId = c.externalId ∧ (c.roleArn ≠ none → c2.roleArn ≠ none)

/-- Role-ARN shape named by the spec, transcribed at character level: the
string decomposes into the literal arn:aws:iam:: followed by an account,
the literal :role/ and a name, for some account and name character
sequences.  This definition follows the wording of the spec, to be
compared with validRoleArnFormat, which follows the source. -/
def SpecRoleArnShape (s : String) : Prop :=
  ∃ a n : List Char, s.data = "arn:aws:iam::".data ++ a ++ ":role/".data ++ n

/-- Fixture: sample credentials returned by the assume-role oracle. -/
def demoCreds : Credentials :=
  { accessKeyId := "AKIA", secretAccessKey := "SECRET", sessionToken := "TOKEN",
    expiration := 3600 }

/-- Fixture: different sample credentials, to show results do not depend on
credential values. -/
def demoCreds2 : Credentials :=
  { accessKeyId := "AKIA2", secretAccessKey := "SECRET2", sessionToken := "TOKEN2",
    expiration := 7200 }

/-- Fixture: provider environment where every call succeeds and the bucket
listing comes back with the optional fields absent. -/
def okEnv : AwsEnv :=
  { assumeRole := fun _ _ => .ok demoCreds
    sendListBuckets := fun _ => .ok { respBuckets := none }
    sendListObjects := fun _ _ _ _ =>
      .ok { respContents := none, respIsTruncated := none, respNextToken := none }
    sendPresign := fun b k _ _ _ => .ok ("https://" ++ b ++ "/" ++ k) }

/-- Fixture: like okEnv but assume-role hands out different credential
values. -/
def okEnv2 : AwsEnv :=
  { okEnv with assumeRole := fun _ _ => .ok demoCreds2 }

/-- Fixture: provider environment that rejects an absent RoleArn, as the
real STS service does, and succeeds otherwise. -/
def strictEnv : AwsEnv :=
  { okEnv with assumeRole := fun r _ =>
      match r with
      | none => .error "MissingParameter: RoleArn"
      | some _ => .ok demoCreds }

/-- Fixture: provider environment whose assume-role call always fails. -/
def denyEnv : AwsEnv :=
  { okEnv with assumeRole := fun _ _ => .error "AccessDenied" }

/-- Fixture: fresh inputs of a first request. -/
def ctx0 : FreshCtx := ⟨100, "FRESH", 10⟩

/-- Fixture: fresh inputs of a second request. -/
def ctx1 : FreshCtx := ⟨101, "FRESH2", 11⟩

/-- Fixture: a well-formed role ARN. -/
def arnA : String := "arn:aws:iam::111122223333:role/A"

/-- Fixture: a second well-formed role ARN. -/
def arnB : String := "arn:aws:iam::111122223333:role/B"

/-- Fixture: a pending connection row of user u. -/
def pendingRow : Conn := ⟨7, "u", "E7", none, "Pending AWS connection", 1⟩

/-- Fixture: a verified connection row of user u for arnA. -/
def verifiedRowA : Conn := ⟨3, "u", "E3", some arnA, "prod", 2⟩

/-- Fixture: a verified connection row of a different user. -/
def foreignRow : Conn := ⟨9, "other-user", "E9", some arnA, "theirs", 3⟩

/-- A connection resolved by resolveConn is a row of the table resolveConn
returns (it is stored, whether it pre-existed or was just created). -/
theorem resolveConn_mem (ctx : FreshCtx) (uid : String) (cid? : Option Nat) (db : DB) :
    (resolveConn ctx uid cid? db).1 ∈ (resolveConn ctx uid cid? db).2 := by
  unfold resolveConn
  cases cid? with
  | none =>
    dsimp only
    split
    · next c hc => exact List.mem_of_find?_eq_some hc
    · exact List.mem_cons_self _ _
  | some cid =>
    dsimp only
    cases h : findById db cid uid with
    | some c =>
      simp only [h]
      exact List.mem_of_find?_eq_some h
    | none =>
      simp only [h]
      split
      · next c hc => exact List.mem_of_find?_eq_some hc
      · exact List.mem_cons_self _ _

/-- Every pre-existing row survives resolution unchanged: resolveConn at
most prepends a freshly created row. -/
theorem resolveConn_extends (ctx : FreshCtx) (uid : String) (cid? : Option Nat)
    (db : DB) : ∀ c ∈ db, c ∈ (resolveConn ctx uid cid? db).2 := by
  intro c hc
  unfold resolveConn
  cases cid? with
  | none =>
    dsimp only
    split
    · exact hc
    · exact List.mem_cons_of_mem _ hc
  | some cid =>
    dsimp only
    cases h : findById db cid uid with
    | some c2 => simpa [h] using hc
    | none =>
      simp only [h]
      split
      · exact hc
      · exact List.mem_cons_of_mem _ hc

/-- Resolution is stable: running resolveConn again, with any fresh inputs,
on the table it produced resolves the very same row and changes nothing. -/
theorem resolveConn_again (ctx ctx2 : FreshCtx) (uid : String) (cid? : Option Nat)
    (db : DB) :
    resolveConn ctx2 uid cid? (resolveConn ctx uid cid? db).2
      = resolveConn ctx uid cid? db := by
  cases cid? with
  | none =>
    unfold resolveConn
    dsimp only
    cases h : findLatestPending db uid with
    | some c => simp [h]
    | none =>
      simp only [h]
      simp [findLatestPending, List.find?]
  | some cid =>
    unfold resolveConn
    dsimp only
    cases h : findById db cid uid with
    | some c => simp [h]
    | none =>
      simp only [h]
      cases h2 : findLatestPending db uid with
      | some c => simp [h, h2]
      | none =>
        simp only [h2]
        cases hc : (ctx.freshId == cid) with
        | true =>
          simp [findById, List.find?, hc]
        | false =>
          unfold findById at h
          simp [findById, findLatestPending, List.find?, hc, h]

/-- The trace of provider calls a verify run issues: either nothing (the
validation gate fired), or the one assume-role call with the stored
external id of the resolved row, optionally followed by the bucket
probe. -/
theorem verify_trace (env : AwsEnv) (ctx : FreshCtx) (uid : String) (body : VerifyBody)
    (db : DB) :
    (verify env ctx uid body db).2.2 = [] ∨
    ((verify env ctx uid body db).2.2 = [AwsCall.assumeRole (some (body.roleArn.getD ""))
        (resolveConn ctx uid body.connectionId db).1.externalId] ∨
     (verify env ctx uid body db).2.2 = [AwsCall.assumeRole (some (body.roleArn.getD ""))
        (resolveConn ctx uid body.connectionId db).1.externalId, AwsCall.listBuckets]) := by
  unfold verify
  split
  · left; rfl
  · dsimp only
    split
    · left; rfl
    · split
      · right; left; rfl
      · split
        · right; right; rfl
        · split
          · split
            · right; right; rfl
            · right; right; rfl
          · right; right; rfl

/-- C1: the external id passed to role assumption is the stored externalId
of the resolved connection row — a row of the table at resolution time —
and a client-supplied externalId field in the verify body has no effect:
two verify runs differing only in that field are equal, calls included. -/
theorem verify_uses_stored_externalId (env : AwsEnv) (ctx : FreshCtx) (uid : String)
    (body : VerifyBody) (db : DB) (e1 e2 : Option String) :
    verify env ctx uid { body with externalId := e1 } db
      = verify env ctx uid { body with externalId := e2 } db ∧
    (∀ a e, AwsCall.assumeRole a e ∈ (verify env ctx uid body db).2.2 →
      e = (resolveConn ctx uid body.connectionId db).1.externalId ∧
      (resolveConn ctx uid body.connectionId db).1 ∈ (resolveConn ctx uid body.connectionId db).2) := by
  refine ⟨rfl, ?_⟩
  intro a e hmem
  rcases verify_trace env ctx uid body db with h | h | h <;> rw [h] at hmem
  · simp at hmem
  · simp only [List.mem_singleton, AwsCall.assumeRole.injEq] at hmem
    exact ⟨hmem.2, resolveConn_mem ctx uid body.connectionId db⟩
  · simp only [List.mem_cons, List.mem_singleton, AwsCall.assumeRole.injEq] at hmem
    rcases hmem with ⟨_, he⟩ | hbad
    · exact ⟨he, resolveConn_mem ctx uid body.connectionId db⟩
    · simp at hbad

/-- Witness for C1 at a concrete input: a pending row with external id E7,
two client-submitted externalId values, identical runs, and the assume-role
call made with E7. -/
theorem verify_uses_stored_externalId_witness :
    (verify okEnv ctx0 "u" { roleArn := some arnA, externalId := some "attacker-eid" }
        [pendingRow]
      = verify okEnv ctx0 "u" { roleArn := some arnA, externalId := some "client-eid" }
        [pendingRow]) ∧
    "E7" = (resolveConn ctx0 "u" none [pendingRow]).1.externalId := by
  have h := verify_uses_stored_externalId okEnv ctx0 "u" { roleArn := some arnA }
    [pendingRow] (some "attacker-eid") (some "client-eid")
  exact ⟨h.1, (h.2 (some arnA) "E7" (by decide)).1⟩

/-- C2: when role assumption (or the subsequent bucket probe) fails, verify
responds with status 403, the table is exactly the table as of resolution
time (so the resolved pending row, its externalId, null roleArn and name
included, is untouched and every pre-existing row survives unchanged), and
a retry, with any corrected role ARN and any fresh inputs, resolves the
very same row — hence uses the same external id. -/
theorem verify_failure_preserves_pending (env : AwsEnv) (ctx ctx2 : FreshCtx)
    (uid : String) (body : VerifyBody) (db : DB) (arn msg : String)
    (hr : body.roleArn = some arn) (hne : strIsEmpty arn = false)
    (hv : validRoleArnFormat arn = true)
    (hfail : env.assumeRole (some arn) (resolveConn ctx uid body.connectionId db).1.externalId
        = .error msg ∨
      (∃ creds, env.assumeRole (some arn) (resolveConn ctx uid body.connectionId db).1.externalId
          = .ok creds ∧ libListBuckets env creds = .error msg)) :
    (verify env ctx uid body db).1.status = 403 ∧
    (verify env ctx uid body db).2.1 = (resolveConn ctx uid body.connectionId db).2 ∧
    (∀ c ∈ db, c ∈ (verify env ctx uid body db).2.1) ∧
    resolveConn ctx2 uid body.connectionId (verify env ctx uid body db).2.1
      = resolveConn ctx uid body.connectionId db := by
  have hjs2 : jsFalsy (some arn) = false := by simpa [jsFalsy] using hne
  unfold verify
  simp only [hr, Option.getD_some, hjs2, Bool.false_eq_true, if_false, hv, Bool.not_true]
  rcases hfail with ha | ⟨creds, ha, hlb⟩
  · simp only [ha]
    exact ⟨rfl, trivial, resolveConn_extends ctx uid body.connectionId db,
      resolveConn_again ctx ctx2 uid body.connectionId db⟩
  · simp only [ha, hlb]
    exact ⟨rfl, trivial, resolveConn_extends ctx uid body.connectionId db,
      resolveConn_again ctx ctx2 uid body.connectionId db⟩

/-- Witness for C2 at a concrete input: provider rejection on a pending
row, 403 response, row preserved, retry resolves the same row. -/
theorem verify_failure_preserves_pending_witness :
    (verify denyEnv ctx0 "u" { roleArn := some arnA } [pendingRow]).1.status = 403 ∧
    pendingRow ∈ (verify denyEnv ctx0 "u" { roleArn := some arnA } [pendingRow]).2.1 ∧
    resolveConn ctx1 "u" none (verify denyEnv ctx0 "u" { roleArn := some arnA } [pendingRow]).2.1
      = resolveConn ctx0 "u" none [pendingRow] := by
  have h := verify_failure_preserves_pending denyEnv ctx0 ctx1 "u"
    { roleArn := some arnA } [pendingRow] arnA "AccessDenied" rfl (by decide) (by decide)
    (Or.inl rfl)
  exact ⟨h.1, h.2.2.1 pendingRow (by decide), h.2.2.2⟩

/-- C3: bootstrap is idempotent — a second bootstrap call, with any fresh
inputs, returns the same connection id and external id and leaves the table
unchanged — and it creates a row (the fresh pending row with the freshly
generated external id) only when the user has no pending row. -/
theorem bootstrap_idempotent (ctxA ctxB : FreshCtx) (uid : String) (db : DB) :
    (bootstrap ctxB uid (bootstrap ctxA uid db).2).1 = (bootstrap ctxA uid db).1 ∧
    (bootstrap ctxB uid (bootstrap ctxA uid db).2).2 = (bootstrap ctxA uid db).2 ∧
    ((∃ c ∈ db, c.userId = uid ∧ c.roleArn = none) → (bootstrap ctxA uid db).2 = db) ∧
    ((bootstrap ctxA uid db).2 ≠ db → (bootstrap ctxA uid db).2 =
        { id := ctxA.freshId, userId := uid, externalId := ctxA.freshEid, roleArn := none,
          name := "Pending AWS connection", createdAt := ctxA.now } :: db) := by
  have key : ∀ r, bootstrap ctxA uid db = r →
      (bootstrap ctxB uid r.2).1 = r.1 ∧ (bootstrap ctxB uid r.2).2 = r.2 := by
    intro r hr
    unfold bootstrap at hr ⊢
    cases h : findLatestPending db uid with
    | some c =>
      rw [h] at hr
      subst hr
      simp [h]
    | none =>
      rw [h] at hr
      subst hr
      simp [findLatestPending, List.find?]
  refine ⟨(key _ rfl).1, (key _ rfl).2, ?_, ?_⟩
  · rintro ⟨c, hc, hu, hp⟩
    unfold bootstrap
    cases h : findLatestPending db uid with
    | some c2 => rfl
    | none =>
      exfalso
      have := List.find?_eq_none.mp h c hc
      simp [hu, hp] at this
  · intro hne
    unfold bootstrap at hne ⊢
    cases h : findLatestPending db uid with
    | some c2 => rw [h] at hne; simp at hne
    | none => rfl

/-- Witness for C3 at concrete inputs: double bootstrap on an empty table
agrees with the first call, and bootstrap on a table that already has a
pending row changes nothing. -/
theorem bootstrap_idempotent_witness :
    ((bootstrap ctx1 "u" (bootstrap ctx0 "u" []).2).1 = (bootstrap ctx0 "u" []).1 ∧
     (bootstrap ctx1 "u" (bootstrap ctx0 "u" []).2).2 = (bootstrap ctx0 "u" []).2) ∧
    (bootstrap ctx0 "u" [pendingRow]).2 = [pendingRow] := by
  have h1 := bootstrap_idempotent ctx0 ctx1 "u" []
  have h2 := bootstrap_idempotent ctx0 ctx1 "u" [pendingRow]
  exact ⟨⟨h1.1, h1.2.1⟩, h2.2.2.1 ⟨pendingRow, by decide, rfl, rfl⟩⟩

/-- Counterexample for C4 as stated: a verify call that targets an
already-verified row by its connectionId with a different well-formed role
ARN overwrites the stored roleArn in place — the row transitions from the
non-null value arnA to the different non-null value arnB, not from null, so
roleArn transitions are not only pending to verified. -/
theorem verify_repoints_verified_row :
    (verify okEnv ctx0 "u" { roleArn := some arnB, connectionId := some 1 }
        [⟨1, "u", "E1", some arnA, "conn", 0⟩]).2.1
      = [⟨1, "u", "E1", some arnB, "conn", 0⟩] ∧
    some arnA ≠ (none : Option String) ∧ arnB ≠ arnA := by decide

/-- Rows with equal ids in a table whose id column has no duplicates are
the same row. -/
theorem conn_eq_of_mem_id {db : DB} (hids : (db.map Conn.id).Nodup) {c c2 : Conn}
    (hc : c ∈ db) (hc2 : c2 ∈ db) (h : c2.id = c.id) : c2 = c :=
  List.inj_on_of_nodup_map hids hc2 hc h

/-- An unchanged table satisfies the row-evolution property. -/
theorem rowEvolution_self {db : DB} (hids : (db.map Conn.id).Nodup) :
    rowEvolution db db := by
  intro c hc c2 hc2 h
  rw [conn_eq_of_mem_id hids hc hc2 h]
  exact ⟨rfl, fun h2 => h2⟩

/-- Prepending a row with a fresh id preserves the row-evolution
property. -/
theorem rowEvolution_cons {db : DB} {newC : Conn} (hids : (db.map Conn.id).Nodup)
    (hfresh : ∀ c ∈ db, c.id ≠ newC.id) :
    rowEvolution db (newC :: db) := by
  intro c hc c2 hc2 h
  rcases List.mem_cons.mp hc2 with rfl | hc2
  · exact absurd h.symm (hfresh c hc)
  · exact rowEvolution_self hids c hc c2 hc2 h

/-- Deleting rows preserves the row-evolution property. -/
theorem rowEvolution_delete {db dbX : DB} (h : rowEvolution db dbX) (cid : Nat) :
    rowEvolution db (deleteConn dbX cid) := by
  intro c hc c2 hc2 hid
  exact h c hc c2 (List.mem_of_mem_filter hc2) hid

/-- The promote update of the verify route — set roleArn to a non-null
value, rewrite name, keep everything else — preserves the row-evolution
property. -/
theorem rowEvolution_update {db dbX : DB} (h : rowEvolution db dbX) (cid : Nat)
    (arn nn : String) :
    rowEvolution db (updateConn dbX cid (fun c => { c with roleArn := some arn, name := nn })) := by
  intro c hc c2 hc2 hid
  unfold updateConn at hc2
  rcases List.mem_map.mp hc2 with ⟨x, hx, rfl⟩
  by_cases hxid : (x.id == cid) = true
  · rw [if_pos hxid] at hid ⊢
    have := h c hc x hx hid
    exact ⟨this.1, fun _ => by simp⟩
  · rw [if_neg hxid] at hid ⊢
    exact h c hc x hx hid

/-- Resolution either leaves the table unchanged or prepends the freshly
created pending row. -/
theorem resolveConn_db_cases (ctx : FreshCtx) (uid : String) (cid? : Option Nat) (db : DB) :
    (resolveConn ctx uid cid? db).2 = db ∨
    (resolveConn ctx uid cid? db).2 =
      { id := ctx.freshId, userId := uid, externalId := ctx.freshEid, roleArn := none,
        name := "Pending AWS connection", createdAt := ctx.now } :: db := by
  unfold resolveConn
  cases cid? with
  | none =>
    dsimp only
    split
    · left; rfl
    · right; rfl
  | some cid =>
    dsimp only
    cases h : findById db cid uid with
    | some c => simp [h]
    | none =>
      simp only [h]
      split
      · left; rfl
      · right; rfl

/-- C4 as amended: across a bootstrap and a verify (the only operations
that write; the resource-access routes read only), every surviving row
keeps its externalId unchanged, and a roleArn that was non-null stays
non-null — it is never reset to null.  The amendment drops only the
sub-claim that roleArn moves exclusively from null, refuted by
verify_repoints_verified_row: a verified row addressed by connectionId can
be re-pointed to a different non-null roleArn. -/
theorem connection_rows_evolve (env : AwsEnv) (ctx : FreshCtx) (uid : String)
    (body : VerifyBody) (db : DB)
    (hids : (db.map Conn.id).Nodup) (hfresh : ∀ c ∈ db, c.id ≠ ctx.freshId) :
    rowEvolution db (bootstrap ctx uid db).2 ∧
    rowEvolution db (verify env ctx uid body db).2.1 := by
  have hdb1 : rowEvolution db (resolveConn ctx uid body.connectionId db).2 := by
    rcases resolveConn_db_cases ctx uid body.connectionId db with h | h <;> rw [h]
    · exact rowEvolution_self hids
    · exact rowEvolution_cons hids hfresh
  constructor
  · unfold bootstrap
    split
    · exact rowEvolution_self hids
    · exact rowEvolution_cons hids hfresh
  · unfold verify
    split
    · exact rowEvolution_self hids
    · dsimp only
      split
      · exact rowEvolution_self hids
      · split
        · exact hdb1
        · split
          · exact hdb1
          · split
            · split
              · dsimp only
                split
                · exact rowEvolution_delete hdb1 _
                · exact hdb1
              · unfold verifyPromote
                exact rowEvolution_update hdb1 _ _ _
            · unfold verifyPromote
              exact rowEvolution_update hdb1 _ _ _

/-- Witness for the amended C4 at a concrete input: a one-row table with a
fresh id for the request. -/
theorem connection_rows_evolve_witness :
    rowEvolution [verifiedRowA] (bootstrap ctx0 "u" [verifiedRowA]).2 ∧
    rowEvolution [verifiedRowA]
      (verify okEnv ctx0 "u" { roleArn := some arnB } [verifiedRowA]).2.1 :=
  connection_rows_evolve okEnv ctx0 "u" { roleArn := some arnB } [verifiedRowA]
    (by decide) (by decide)

/-- C5 evaluation at the failing input: with a pending-only connection
(roleArn null) and a provider that rejects an absent RoleArn as STS does,
the objects route issues an assume-role provider call with the null roleArn
and answers 500 — while the sibling buckets and presigned-url routes answer
409 with no provider call, as the spec requires of all three. -/
theorem objects_route_pending_returns_500 :
    (objectsRoute strictEnv "u" (some "b") none none none [pendingRow]).1
      = ObjectsOutcome.serverError "MissingParameter: RoleArn" ∧
    (objectsRoute strictEnv "u" (some "b") none none none [pendingRow]).1.status = 500 ∧
    (objectsRoute strictEnv "u" (some "b") none none none [pendingRow]).2
      = [AwsCall.assumeRole none "E7"] ∧
    bucketsRoute strictEnv "u" none [pendingRow] = (BucketsOutcome.notVerified, []) ∧
    BucketsOutcome.notVerified.status = 409 ∧
    presignRoute strictEnv "u" { bucket := some "b", key := some "k" } [pendingRow]
      = (PresignOutcome.notVerified, []) ∧
    PresignOutcome.notVerified.status = 409 := by decide


/-- C6: reconciliation of a successful verify.  If a row for
(userId, roleArn) already exists and differs from the verification target,
the response carries the pre-existing row exactly as stored (its name in
particular is not updated), the target is deleted exactly when it was still
pending — when pending no row with its id remains — and the pre-existing
row survives unchanged in the table.  Otherwise the working row is promoted
in place: roleArn set to the submitted identifier, name rewritten through
the name-if-supplied fallback (unchanged when no name is submitted), and
every resulting row keeps the id and externalId of a stored row — the
externalId is untouched. -/
theorem verify_reconciliation (env : AwsEnv) (ctx : FreshCtx) (uid : String)
    (body : VerifyBody) (db : DB) (arn : String) (creds : Credentials)
    (bs : List Bucket) (conn : Conn) (db1 : DB)
    (hres : resolveConn ctx uid body.connectionId db = (conn, db1))
    (hr : body.roleArn = some arn) (hne : strIsEmpty arn = false)
    (hv : validRoleArnFormat arn = true)
    (ha : env.assumeRole (some arn) conn.externalId = .ok creds)
    (hlb : libListBuckets env creds = .ok bs) :
    (∀ ex, findByUserRole db1 uid arn = some ex → ex.id ≠ conn.id →
      (verify env ctx uid body db).1 = .ok ex.id (ex.roleArn.getD "") ex.name ex.createdAt ∧
      (verify env ctx uid body db).2.1
        = (if conn.roleArn.isNone then deleteConn db1 conn.id else db1) ∧
      ex ∈ (verify env ctx uid body db).2.1 ∧
      (conn.roleArn = none → ∀ c ∈ (verify env ctx uid body db).2.1, c.id ≠ conn.id)) ∧
    ((∀ ex, findByUserRole db1 uid arn = some ex → ex.id = conn.id) →
      (verify env ctx uid body db).1
        = .ok conn.id arn (jsOrStr body.name conn.name) conn.createdAt ∧
      (verify env ctx uid body db).2.1 = updateConn db1 conn.id
        (fun c => { c with roleArn := some arn, name := jsOrStr body.name conn.name }) ∧
      (∀ c ∈ (verify env ctx uid body db).2.1, ∃ c0 ∈ db1,
        c.id = c0.id ∧ c.externalId = c0.externalId) ∧
      (body.name = none → jsOrStr body.name conn.name = conn.name)) := by
  have hjs2 : jsFalsy (some arn) = false := by simpa [jsFalsy] using hne
  have hverify : verify env ctx uid body db =
      (match findByUserRole db1 uid arn with
        | some ex =>
          if ex.id ≠ conn.id then
            (.ok ex.id (ex.roleArn.getD "") ex.name ex.createdAt,
              if conn.roleArn.isNone then deleteConn db1 conn.id else db1,
              [AwsCall.assumeRole (some arn) conn.externalId, AwsCall.listBuckets])
          else
            ((.ok (verifyPromote db1 conn arn body.name).1.id
                ((verifyPromote db1 conn arn body.name).1.roleArn.getD "")
                (verifyPromote db1 conn arn body.name).1.name
                (verifyPromote db1 conn arn body.name).1.createdAt),
              (verifyPromote db1 conn arn body.name).2,
              [AwsCall.assumeRole (some arn) conn.externalId, AwsCall.listBuckets])
        | none =>
          ((.ok (verifyPromote db1 conn arn body.name).1.id
              ((verifyPromote db1 conn arn body.name).1.roleArn.getD "")
              (verifyPromote db1 conn arn body.name).1.name
              (verifyPromote db1 conn arn body.name).1.createdAt),
            (verifyPromote db1 conn arn body.name).2,
            [AwsCall.assumeRole (some arn) conn.externalId, AwsCall.listBuckets])) := by
    unfold verify
    simp only [hr, Option.getD_some, hjs2, Bool.false_eq_true, if_false, hv, Bool.not_true,
      hres, ha, hlb]
  constructor
  · intro ex hex hneq
    rw [hverify, hex]
    dsimp only
    rw [if_pos hneq]
    refine ⟨rfl, rfl, ?_, ?_⟩
    · have hmem : ex ∈ db1 := List.mem_of_find?_eq_some hex
      dsimp only
      split
      · exact List.mem_filter.mpr ⟨hmem, by simp [hneq]⟩
      · exact hmem
    · intro hnone c hc
      dsimp only at hc
      rw [if_pos (by simp [hnone])] at hc
      have := List.of_mem_filter hc
      simpa using this
  · intro hall
    have hbranch : verify env ctx uid body db =
        ((.ok (verifyPromote db1 conn arn body.name).1.id
            ((verifyPromote db1 conn arn body.name).1.roleArn.getD "")
            (verifyPromote db1 conn arn body.name).1.name
            (verifyPromote db1 conn arn body.name).1.createdAt),
          (verifyPromote db1 conn arn body.name).2,
          [AwsCall.assumeRole (some arn) conn.externalId, AwsCall.listBuckets]) := by
      rw [hverify]
      cases hex : findByUserRole db1 uid arn with
      | some ex =>
        dsimp only
        rw [if_neg (by simp only [ne_eq, not_not]; exact hall ex hex)]
      | none => rfl
    rw [hbranch]
    refine ⟨rfl, rfl, ?_, ?_⟩
    · intro c hc
      unfold verifyPromote updateConn at hc
      dsimp only at hc
      rcases List.mem_map.mp hc with ⟨x, hx, rfl⟩
      by_cases hxid : (x.id == conn.id) = true
      · rw [if_pos hxid]
        exact ⟨x, hx, rfl, rfl⟩
      · rw [if_neg hxid]
        exact ⟨x, hx, rfl, rfl⟩
    · intro hn
      simp [hn, jsOrStr]

/-- Witness for C6 at a concrete input: a pending target and a pre-existing
verified row for the same role ARN; verify answers with the pre-existing
row, which survives unchanged. -/
theorem verify_reconciliation_witness :
    (verify okEnv ctx0 "u" { roleArn := some arnA } [pendingRow, verifiedRowA]).1
      = .ok verifiedRowA.id (verifiedRowA.roleArn.getD "") verifiedRowA.name
          verifiedRowA.createdAt ∧
    verifiedRowA ∈ (verify okEnv ctx0 "u" { roleArn := some arnA }
      [pendingRow, verifiedRowA]).2.1 := by
  have h := verify_reconciliation okEnv ctx0 "u" { roleArn := some arnA }
    [pendingRow, verifiedRowA] arnA demoCreds [] pendingRow [pendingRow, verifiedRowA]
    (by decide) rfl (by decide) (by decide) rfl rfl
  have h1 := h.1 verifiedRowA (by decide) (by decide)
  exact ⟨h1.1, h1.2.2.1⟩

/-- Counterexample for C7 as stated: the string arn:aws:iam::role/Demo does
not match the role-ARN shape arn:aws:iam:: account :role/ name — by a
colon-count argument there is no decomposition — yet the verify format
check accepts it and the run proceeds to provider calls and succeeds,
rather than failing with 400 before any network call. -/
theorem roleArnShape_counterexample :
    ¬ SpecRoleArnShape "arn:aws:iam::role/Demo" ∧
    validRoleArnFormat "arn:aws:iam::role/Demo" = true ∧
    (verify okEnv ctx0 "u" { roleArn := some "arn:aws:iam::role/Demo" } []).1.status = 200 ∧
    (verify okEnv ctx0 "u" { roleArn := some "arn:aws:iam::role/Demo" } []).2.2 ≠ [] := by
  refine ⟨?_, by decide, by decide, by decide⟩
  rintro ⟨a, n, h⟩
  have hcount := congrArg (List.count ':') h
  simp only [List.count_append] at hcount
  have h1 : List.count ':' "arn:aws:iam::role/Demo".data = 4 := by decide
  have h2 : List.count ':' "arn:aws:iam::".data = 4 := by decide
  have h3 : List.count ':' ":role/".data = 1 := by decide
  rw [h1, h2, h3] at hcount
  omega

/-- C7 as amended: whenever the submitted roleArn is missing or empty, or
fails the source format check (startsWith arn:aws:iam:: and includes
:role/), verify answers 400 with the table unchanged and no provider call
issued.  The amendment replaces the full ARN shape by the source check,
which roleArnShape_counterexample shows is strictly weaker. -/
theorem verify_validation_gate (env : AwsEnv) (ctx : FreshCtx) (uid : String)
    (body : VerifyBody) (db : DB)
    (hbad : jsFalsy body.roleArn = true ∨ validRoleArnFormat (body.roleArn.getD "") = false) :
    (verify env ctx uid body db).1.status = 400 ∧
    (verify env ctx uid body db).2.1 = db ∧
    (verify env ctx uid body db).2.2 = [] := by
  unfold verify
  cases hjs : jsFalsy body.roleArn with
  | true => simp [hjs, VerifyOutcome.status]
  | false =>
    rcases hbad with h | h
    · rw [hjs] at h; exact absurd h (by simp)
    · simp [hjs, h, VerifyOutcome.status]

/-- Witness for the amended C7 at the concrete misformatted ARN of the
spec: arn:aws:iam::123456789012:user/Demo is rejected with 400 before any
network call. -/
theorem verify_validation_gate_witness :
    (verify okEnv ctx0 "u" { roleArn := some "arn:aws:iam::123456789012:user/Demo" } []).1.status = 400 ∧
    (verify okEnv ctx0 "u" { roleArn := some "arn:aws:iam::123456789012:user/Demo" } []).2.1 = [] ∧
    (verify okEnv ctx0 "u" { roleArn := some "arn:aws:iam::123456789012:user/Demo" } []).2.2 = [] :=
  verify_validation_gate okEnv ctx0 "u"
    { roleArn := some "arn:aws:iam::123456789012:user/Demo" } [] (Or.inr (by decide))

/-- C8: nothing from the short-lived credentials is persisted or returned.
The Conn row type has no credential field, and this theorem makes the
frame property formal as non-interference: two provider environments that
both succeed — whatever credential values and bucket listings they hand
out — produce identical verify results, table included, and the response
is the ok form carrying exactly id, roleArn, name and createdAt. -/
theorem verify_persists_no_credentials (env1 env2 : AwsEnv) (ctx : FreshCtx)
    (uid : String) (body : VerifyBody) (db : DB) (arn : String)
    (hr : body.roleArn = some arn) (hne : strIsEmpty arn = false)
    (hv : validRoleArnFormat arn = true)
    (h1 : ∀ r e, ∃ c, env1.assumeRole r e = .ok c)
    (h2 : ∀ r e, ∃ c, env2.assumeRole r e = .ok c)
    (h3 : ∀ c, ∃ resp, env1.sendListBuckets c = .ok resp)
    (h4 : ∀ c, ∃ resp, env2.sendListBuckets c = .ok resp) :
    verify env1 ctx uid body db = verify env2 ctx uid body db ∧
    ∃ i r n t, (verify env1 ctx uid body db).1 = .ok i r n t := by
  have hjs2 : jsFalsy (some arn) = false := by simpa [jsFalsy] using hne
  obtain ⟨c1, hc1⟩ := h1 (some arn) (resolveConn ctx uid body.connectionId db).1.externalId
  obtain ⟨c2, hc2⟩ := h2 (some arn) (resolveConn ctx uid body.connectionId db).1.externalId
  obtain ⟨r1, hr1⟩ := h3 c1
  obtain ⟨r2, hr2⟩ := h4 c2
  have hl1 : libListBuckets env1 c1 = .ok (listBucketsFromResponse r1) := by
    unfold libListBuckets; rw [hr1]
  have hl2 : libListBuckets env2 c2 = .ok (listBucketsFromResponse r2) := by
    unfold libListBuckets; rw [hr2]
  constructor
  · unfold verify
    simp only [hr, Option.getD_some, hjs2, Bool.false_eq_true, if_false, hv, Bool.not_true,
      hc1, hc2, hl1, hl2]
  · unfold verify
    simp only [hr, Option.getD_some, hjs2, Bool.false_eq_true, if_false, hv, Bool.not_true,
      hc1, hl1]
    cases hfind : findByUserRole (resolveConn ctx uid body.connectionId db).2 uid arn with
    | some ex =>
      simp only [hfind]
      by_cases hid : ex.id ≠ (resolveConn ctx uid body.connectionId db).1.id
      · rw [if_pos hid]
        exact ⟨_, _, _, _, rfl⟩
      · rw [if_neg hid]
        exact ⟨_, _, _, _, rfl⟩
    | none =>
      simp only [hfind]
      exact ⟨_, _, _, _, rfl⟩

/-- Witness for C8 at a concrete input: two environments handing out
different credential values give the same run. -/
theorem verify_persists_no_credentials_witness :
    verify okEnv ctx0 "u" { roleArn := some arnA } [pendingRow]
      = verify okEnv2 ctx0 "u" { roleArn := some arnA } [pendingRow] ∧
    ∃ i r n t, (verify okEnv ctx0 "u" { roleArn := some arnA } [pendingRow]).1
      = .ok i r n t := by
  have h := verify_persists_no_credentials okEnv okEnv2 ctx0 "u"
    { roleArn := some arnA } [pendingRow] arnA rfl (by decide) (by decide)
    (fun _ _ => ⟨demoCreds, rfl⟩) (fun _ _ => ⟨demoCreds2, rfl⟩)
    (fun _ => ⟨{ respBuckets := none }, rfl⟩) (fun _ => ⟨{ respBuckets := none }, rfl⟩)
  exact h

/-- C9: every store lookup by explicit connectionId is scoped by userId.
When every row carrying the requested id belongs to a different user, the
scoped lookup comes back empty, the three resource-access routes answer 404
exactly as if no such connection existed, and the verify resolution never
operates on the foreign row — the row it resolves belongs to the requesting
user. -/
theorem lookup_scoped_by_user (env : AwsEnv) (ctx : FreshCtx) (uid : String)
    (cid : Nat) (db : DB) (bucket : Option String) (pfx : Option String)
    (maxKeys : Option Nat) (pb : PresignBody)
    (h : ∀ c ∈ db, c.id = cid → c.userId ≠ uid) :
    findById db cid uid = none ∧
    bucketsRoute env uid (some cid) db = (.notFound, []) ∧
    (jsFalsy bucket = false →
      objectsRoute env uid bucket pfx maxKeys (some cid) db = (.notFound, [])) ∧
    (jsFalsy pb.bucket = false → jsFalsy pb.key = false → pb.connectionId = some cid →
      presignRoute env uid pb db = (.notFound, [])) ∧
    (resolveConn ctx uid (some cid) db).1.userId = uid := by
  have hfind : findById db cid uid = none := by
    unfold findById
    rw [List.find?_eq_none]
    intro c hc
    simp only [Bool.and_eq_true, beq_iff_eq, not_and]
    intro hid
    exact fun hu => h c hc hid hu
  refine ⟨hfind, ?_, ?_, ?_, ?_⟩
  · unfold bucketsRoute resolveForAccess
    dsimp only
    rw [hfind]
  · intro hb
    unfold objectsRoute resolveForAccess
    rw [if_neg (by simp [hb])]
    dsimp only
    rw [hfind]
  · intro hb hk hcid
    unfold presignRoute resolveForAccess
    rw [if_neg (by simp [hb, hk]), hcid]
    dsimp only
    rw [hfind]
  · unfold resolveConn
    dsimp only
    rw [hfind]
    dsimp only
    cases hp : findLatestPending db uid with
    | some c =>
      simp only [hp]
      have := List.find?_some hp
      simp only [Bool.and_eq_true, beq_iff_eq] at this
      exact this.1
    | none =>
      simp only [hp]

/-- Witness for C9 at a concrete input: a table holding only a foreign
row addressed by its id. -/
theorem lookup_scoped_by_user_witness :
    findById [foreignRow] 9 "u" = none ∧
    bucketsRoute okEnv "u" (some 9) [foreignRow] = (.notFound, []) ∧
    objectsRoute okEnv "u" (some "b") none none (some 9) [foreignRow] = (.notFound, []) ∧
    presignRoute okEnv "u" { bucket := some "b", key := some "k", connectionId := some 9 }
      [foreignRow] = (.notFound, []) ∧
    (resolveConn ctx0 "u" (some 9) [foreignRow]).1.userId = "u" := by
  have h := lookup_scoped_by_user okEnv ctx0 "u" 9 [foreignRow] (some "b") none none
    { bucket := some "b", key := some "k", connectionId := some 9 } (by decide)
  exact ⟨h.1, h.2.1, h.2.2.1 (by decide), h.2.2.2.1 (by decide) (by decide) rfl, h.2.2.2.2⟩

/-- C10: absent optional provider fields are normalized, not surfaced as
failures.  A ListBuckets response with no bucket entries normalizes to the
empty list and the listBuckets wrapper returns it as a success; a
ListObjectsV2 response with neither contents nor a truncation flag
normalizes to empty objects with isTruncated false, the continuation token
passed through, again as a success. -/
theorem provider_absent_fields_normalized :
    (∀ r : ListBucketsResponse, (r.respBuckets = none ∨ r.respBuckets = some []) →
      listBucketsFromResponse r = []) ∧
    (∀ r : ListObjectsResponse, r.respContents = none → r.respIsTruncated = none →
      (listObjectsFromResponse r).objects = [] ∧
      (listObjectsFromResponse r).isTruncated = false) ∧
    (∀ (env : AwsEnv) (creds : Credentials) (r : ListBucketsResponse),
      env.sendListBuckets creds = .ok r → r.respBuckets = none →
      libListBuckets env creds = .ok []) ∧
    (∀ (env : AwsEnv) (bucket : String) (pfx : Option String) (maxKeys : Option Nat)
        (creds : Credentials) (r : ListObjectsResponse),
      env.sendListObjects bucket pfx maxKeys creds = .ok r →
      r.respContents = none → r.respIsTruncated = none →
      libListObjects env bucket pfx maxKeys creds
        = .ok { objects := [], isTruncated := false,
                nextContinuationToken := r.respNextToken }) := by
  refine ⟨?_, ?_, ?_, ?_⟩
  · rintro r (h | h) <;> simp [listBucketsFromResponse, h]
  · intro r h1 h2
    simp [listObjectsFromResponse, h1, h2]
  · intro env creds r hs hb
    simp [libListBuckets, hs, listBucketsFromResponse, hb]
  · intro env bucket pfx mk creds r hs h1 h2
    simp [libListObjects, hs, listObjectsFromResponse, h1, h2]

/-- Witness for C10 at concrete inputs: the all-absent responses of the
okEnv fixture. -/
theorem provider_absent_fields_normalized_witness :
    libListBuckets okEnv demoCreds = .ok [] ∧
    libListObjects okEnv "b" none none demoCreds
      = .ok { objects := [], isTruncated := false, nextContinuationToken := none } := by
  have h := provider_absent_fields_normalized
  exact ⟨h.2.2.1 okEnv demoCreds { respBuckets := none } rfl rfl,
    h.2.2.2 okEnv "b" none none demoCreds
      { respContents := none, respIsTruncated := none, respNextToken := none } rfl rfl rfl⟩

end S3Helper
